import Mathlib

/-!
Verification of the privileged-access broker subsystem (Azure PIM skill).

The definitions below are a shallow embedding of the Python sources:
  - azure_pim/models/azure_rbac.py   (AzureScope)
  - azure_pim/models/common.py       (ExpirationPattern)
  - azure_pim/operations/pim.py      (PIMOperations role resolution, activation)
  - azure_pim/clients/arm.py         (ARMClient request dispatch, payload building)
  - azure_pim/clients/graph.py       (GraphClient request dispatch)
  - azure_pim/auth.py                (provider selection, token cache handling)

Python strings are embedded as Lean String values; Python dicts whose key sets
are statically known are embedded as structures with Option-valued fields (a
key is present iff the field is some); fallible code returns Except.
-/

namespace AzurePim

/-- ASCII lowering of one character, as performed by Python str.lower on the
ASCII range. The embedded code only compares lowered tokens against the ASCII
literals "subscriptions", "resourcegroups" and "providers", and on such
comparisons ASCII lowering agrees with full Unicode lowering. -/
def pyCharLower (c : Char) : Char :=
  if 'A' ≤ c && c ≤ 'Z' then Char.ofNat (c.toNat + 32) else c

/-- Python str.lower restricted to ASCII case mapping. -/
def pyLower (s : String) : String :=
  String.mk (s.data.map pyCharLower)

/-- Python str.strip("/"): remove every leading and trailing '/' character. -/
def pyStripSlash (l : List Char) : List Char :=
  ((l.dropWhile (fun c => c == '/')).reverse.dropWhile (fun c => c == '/')).reverse

/-- Python str.split("/") on a character list: split at every '/' separator,
keeping empty fields, with [""] as the result for the empty string. -/
def pySplitSlash : List Char → List (List Char)
  | [] => [[]]
  | c :: rest =>
    if c = '/' then
      [] :: pySplitSlash rest
    else
      match pySplitSlash rest with
      | [] => [[c]]
      | t :: ts => (c :: t) :: ts

/-- Python truthiness of an optional string: None and the empty string are
falsy, every other string is truthy. -/
def truthy : Option String → Bool
  | none => false
  | some s => !(s == "")

/-- AzureScope (models/azure_rbac.py): subscription id plus optional resource
group and optional provider/resource-type/resource-name fields. -/
structure AzureScope where
  subscription_id : String
  resource_group : Option String := none
  provider : Option String := none
  resource_type : Option String := none
  resource_name : Option String := none
deriving DecidableEq, Repr

/-- AzureScope.to_string: build the scope path, appending the resourceGroups
segment only when resource_group is truthy and the providers segment only when
all three of provider, resource_type and resource_name are truthy. -/
def AzureScope.to_string (s : AzureScope) : String :=
  let scope := "/subscriptions/" ++ s.subscription_id
  let scope :=
    if truthy s.resource_group then
      scope ++ "/resourceGroups/" ++ s.resource_group.getD ""
    else scope
  let scope :=
    if truthy s.provider && truthy s.resource_type && truthy s.resource_name then
      scope ++ "/providers/" ++ s.provider.getD "" ++ "/" ++ s.resource_type.getD ""
        ++ "/" ++ s.resource_name.getD ""
    else scope
  scope

/-- The token list scanned by AzureScope.from_string:
scope.strip("/").split("/"). -/
def scopeParts (scope : String) : List String :=
  (pySplitSlash (pyStripSlash scope.data)).map fun l => String.mk l

/-- The while loop of AzureScope.from_string: walk the tokens, consuming the
value after a recognized keyword (three values after "providers"), skipping a
single token when no keyword with enough lookahead matches. The loop index i
is modeled by the remaining token list; the Nat argument is an iteration bound
that from_string instantiates with the token count, which always suffices
because every iteration advances i by at least one. The accumulator starts
from subscription_id = "" and optional fields none. -/
def scanScope : Nat → List String → AzureScope → AzureScope
  | _, [], st => st
  | 0, _ :: _, st => st
  | fuel + 1, p :: rest, st =>
    if pyLower p = "subscriptions" then
      match rest with
      | v :: rest2 => scanScope fuel rest2 { st with subscription_id := v }
      | [] => scanScope fuel rest st
    else if pyLower p = "resourcegroups" then
      match rest with
      | v :: rest2 => scanScope fuel rest2 { st with resource_group := some v }
      | [] => scanScope fuel rest st
    else if pyLower p = "providers" then
      match rest with
      | v :: t :: n :: rest2 =>
        scanScope fuel rest2
          { st with provider := some v, resource_type := some t, resource_name := some n }
      | _ => scanScope fuel rest st
    else
      scanScope fuel rest st

/-- AzureScope.from_string: scan the stripped, slash-split tokens. The Python
method never raises; unmatched inputs leave subscription_id equal to "". -/
def AzureScope.from_string (scope : String) : AzureScope :=
  scanScope (scopeParts scope).length (scopeParts scope) { subscription_id := "" }

/-- Validity of a scope tuple as stated by claim C2: provider, resource_type
and resource_name all set or all unset, and every set string field nonempty. -/
def claimValidScope (s : AzureScope) : Bool :=
  (s.subscription_id != "") &&
  (match s.resource_group with
   | none => true
   | some x => x != "") &&
  (match s.provider, s.resource_type, s.resource_name with
   | some p, some t, some n => (p != "") && (t != "") && (n != "")
   | none, none, none => true
   | _, _, _ => false)

/-- No set field of the scope contains a path separator. -/
def scopeSlashFree (s : AzureScope) : Bool :=
  (s.subscription_id.data.all fun c => c != '/') &&
  ((s.resource_group.getD "").data.all fun c => c != '/') &&
  ((s.provider.getD "").data.all fun c => c != '/') &&
  ((s.resource_type.getD "").data.all fun c => c != '/') &&
  ((s.resource_name.getD "").data.all fun c => c != '/')

/-! Auxiliary lemmas about the embedded Python string primitives. -/

theorem string_mk_data (s : String) : String.mk s.data = s := by
  cases s
  rfl

theorem string_data_ne_nil (s : String) (h : s ≠ "") : s.data ≠ [] := by
  intro hd
  apply h
  apply String.ext
  rw [hd]

theorem pySplitSlash_noslash (a : List Char) (h : '/' ∉ a) : pySplitSlash a = [a] := by
  induction a with
  | nil => rfl
  | cons c rest ih =>
    simp only [List.mem_cons, not_or] at h
    have hc : ¬(c = '/') := fun e => h.1 e.symm
    simp [pySplitSlash, hc, ih h.2]

theorem pySplitSlash_append (a b : List Char) (h : '/' ∉ a) :
    pySplitSlash (a ++ '/' :: b) = a :: pySplitSlash b := by
  induction a with
  | nil => simp [pySplitSlash]
  | cons c rest ih =>
    simp only [List.mem_cons, not_or] at h
    have hc : ¬(c = '/') := fun e => h.1 e.symm
    simp [pySplitSlash, hc, ih h.2]

/-- Join nonseparator tokens with a single '/' between consecutive tokens. -/
def slashJoin : List (List Char) → List Char
  | [] => []
  | [x] => x
  | x :: xs => x ++ '/' :: slashJoin xs

theorem slashJoin_cons_cons (x y : List Char) (ys : List (List Char)) :
    slashJoin (x :: y :: ys) = x ++ '/' :: slashJoin (y :: ys) := rfl

theorem slashJoin_ne_nil (x : List Char) (xs : List (List Char)) (hx : x ≠ []) :
    slashJoin (x :: xs) ≠ [] := by
  cases xs with
  | nil => exact hx
  | cons y ys =>
    rw [slashJoin_cons_cons]
    intro h
    exact hx (List.append_eq_nil.mp h).1

theorem pySplitSlash_slashJoin (toks : List (List Char)) (hne : toks ≠ [])
    (h : ∀ x ∈ toks, '/' ∉ x) :
    pySplitSlash (slashJoin toks) = toks := by
  induction toks with
  | nil => exact absurd rfl hne
  | cons x xs ih =>
    cases xs with
    | nil => simpa [slashJoin] using pySplitSlash_noslash x (h x (by simp))
    | cons y ys =>
      rw [slashJoin_cons_cons, pySplitSlash_append x _ (h x (by simp)),
        ih (by simp) fun z hz => h z (by simp [hz])]

theorem slashJoin_head? (x : List Char) (xs : List (List Char)) (hx : x ≠ []) :
    (slashJoin (x :: xs)).head? = x.head? := by
  cases xs with
  | nil => rfl
  | cons y ys =>
    rw [slashJoin_cons_cons]
    exact List.head?_append_of_ne_nil x hx

theorem slashJoin_getLast_ne_slash (toks : List (List Char)) (hne : toks ≠ [])
    (hnonempty : ∀ x ∈ toks, x ≠ []) (hslash : ∀ x ∈ toks, '/' ∉ x) :
    ∀ c, (slashJoin toks).getLast? = some c → c ≠ '/' := by
  induction toks with
  | nil => exact absurd rfl hne
  | cons x xs ih =>
    cases xs with
    | nil =>
      intro c hc he
      have hmem : c ∈ x := List.mem_of_mem_getLast? (by simpa [slashJoin] using hc)
      exact hslash x (by simp) (he ▸ hmem)
    | cons y ys =>
      intro c hc he
      have hyne : slashJoin (y :: ys) ≠ [] :=
        slashJoin_ne_nil y ys (hnonempty y (by simp))
      rw [slashJoin_cons_cons, List.getLast?_append_cons] at hc
      obtain ⟨z, zs, hz⟩ := List.exists_cons_of_ne_nil hyne
      rw [hz, show ('/' :: z :: zs : List Char) = ['/'] ++ z :: zs from rfl,
        List.getLast?_append_cons, ← hz] at hc
      exact ih (by simp) (fun w hw => hnonempty w (by simp [hw]))
        (fun w hw => hslash w (by simp [hw])) c hc he

theorem dropWhile_slash_of_head (l : List Char)
    (h : ∀ c, l.head? = some c → c ≠ '/') :
    l.dropWhile (fun c => c == '/') = l := by
  cases l with
  | nil => rfl
  | cons c rest =>
    have hc : ¬(c == '/') = true := by
      simpa using h c rfl
    simp [List.dropWhile_cons, hc]

theorem pyStripSlash_cons_slash (l : List Char) :
    pyStripSlash ('/' :: l) = pyStripSlash l := by
  simp [pyStripSlash, List.dropWhile_cons]

theorem pyStripSlash_eq_self (l : List Char)
    (h1 : ∀ c, l.head? = some c → c ≠ '/')
    (h2 : ∀ c, l.getLast? = some c → c ≠ '/') :
    pyStripSlash l = l := by
  unfold pyStripSlash
  rw [dropWhile_slash_of_head l h1,
    dropWhile_slash_of_head l.reverse (by simpa [List.head?_reverse] using h2),
    List.reverse_reverse]

theorem scopeParts_of_data (str : String) (toks : List (List Char))
    (hdata : str.data = '/' :: slashJoin toks) (hne : toks ≠ [])
    (hnonempty : ∀ x ∈ toks, x ≠ []) (hslash : ∀ x ∈ toks, '/' ∉ x) :
    scopeParts str = toks.map String.mk := by
  have hhead : ∀ c, (slashJoin toks).head? = some c → c ≠ '/' := by
    obtain ⟨x, xs, hx⟩ := List.exists_cons_of_ne_nil hne
    subst hx
    rw [slashJoin_head? x xs (hnonempty x (by simp))]
    intro c hc
    intro he
    exact hslash x (by simp) (he ▸ List.mem_of_mem_head? hc)
  unfold scopeParts
  rw [hdata, pyStripSlash_cons_slash,
    pyStripSlash_eq_self _ hhead (slashJoin_getLast_ne_slash toks hne hnonempty hslash),
    pySplitSlash_slashJoin toks hne hslash]

theorem noslash_of_all (s : String) (h : (s.data.all fun c => c != '/') = true) :
    '/' ∉ s.data := by
  intro hm
  have := List.all_eq_true.mp h _ hm
  simp at this

theorem data_slash_subscriptions :
    "/subscriptions/".data = '/' :: ("subscriptions".data ++ ['/']) := by decide

theorem data_slash_resourceGroups :
    "/resourceGroups/".data = '/' :: ("resourceGroups".data ++ ['/']) := by decide

theorem data_slash_providers :
    "/providers/".data = '/' :: ("providers".data ++ ['/']) := by decide

theorem data_slash : "/".data = ['/'] := by decide

/-- C2 (amended): for every scope tuple that is valid in the sense of the
claim and whose set fields contain no '/' character, from_string inverts
to_string. The slash-freedom hypothesis is necessary: see the
counterexample below. -/
theorem azureScope_roundtrip (s : AzureScope)
    (hv : claimValidScope s = true) (hf : scopeSlashFree s = true) :
    AzureScope.from_string s.to_string = s := by
  obtain ⟨sub, rg, pv, rt, rn⟩ := s
  cases rg with
  | none =>
    cases pv <;> cases rt <;> cases rn <;>
      simp only [claimValidScope, scopeSlashFree, Bool.and_eq_true, bne_iff_ne, ne_eq,
        Option.getD_none, Option.getD_some] at hv hf
    all_goals try exact absurd hv.2 Bool.false_ne_true
    case none.none.none =>
      have hsub : ¬sub = "" := by tauto
      have hsubd : '/' ∉ sub.data := noslash_of_all sub (by tauto)
      have hdata :
          (AzureScope.to_string
              { subscription_id := sub, resource_group := none, provider := none,
                resource_type := none, resource_name := none }).data
            = '/' :: slashJoin ["subscriptions".data, sub.data] := by
        simp [AzureScope.to_string, truthy, String.data_append, slashJoin,
          data_slash_subscriptions, List.append_assoc]
      have hparts :
          scopeParts
              (AzureScope.to_string
                { subscription_id := sub, resource_group := none, provider := none,
                  resource_type := none, resource_name := none })
            = ["subscriptions", sub] := by
        have h2 := scopeParts_of_data _ _ hdata (by simp)
          (by intro x hx
              simp only [List.mem_cons, List.not_mem_nil, or_false] at hx
              rcases hx with rfl | rfl
              · decide
              · exact string_data_ne_nil sub hsub)
          (by intro x hx
              simp only [List.mem_cons, List.not_mem_nil, or_false] at hx
              rcases hx with rfl | rfl
              · decide
              · exact hsubd)
        simpa [string_mk_data] using h2
      unfold AzureScope.from_string
      rw [hparts]
      rfl
    case none.some.some.some p t n =>
      have hsub : ¬sub = "" := by tauto
      have hp : ¬p = "" := by tauto
      have ht : ¬t = "" := by tauto
      have hn : ¬n = "" := by tauto
      have hsubd : '/' ∉ sub.data := noslash_of_all sub (by tauto)
      have hpd : '/' ∉ p.data := noslash_of_all p (by tauto)
      have htd : '/' ∉ t.data := noslash_of_all t (by tauto)
      have hnd : '/' ∉ n.data := noslash_of_all n (by tauto)
      have hp2 : (p == "") = false := by simpa using hp
      have ht2 : (t == "") = false := by simpa using ht
      have hn2 : (n == "") = false := by simpa using hn
      have hdata :
          (AzureScope.to_string
              { subscription_id := sub, resource_group := none, provider := some p,
                resource_type := some t, resource_name := some n }).data
            = '/' :: slashJoin
                ["subscriptions".data, sub.data, "providers".data, p.data, t.data, n.data] := by
        simp [AzureScope.to_string, truthy, hp2, ht2, hn2, String.data_append, slashJoin,
          data_slash_subscriptions, data_slash_providers, data_slash, List.append_assoc]
      have hparts :
          scopeParts
              (AzureScope.to_string
                { subscription_id := sub, resource_group := none, provider := some p,
                  resource_type := some t, resource_name := some n })
            = ["subscriptions", sub, "providers", p, t, n] := by
        have h2 := scopeParts_of_data _ _ hdata (by simp)
          (by intro x hx
              simp only [List.mem_cons, List.not_mem_nil, or_false] at hx
              rcases hx with rfl | rfl | rfl | rfl | rfl | rfl
              · decide
              · exact string_data_ne_nil sub hsub
              · decide
              · exact string_data_ne_nil p hp
              · exact string_data_ne_nil t ht
              · exact string_data_ne_nil n hn)
          (by intro x hx
              simp only [List.mem_cons, List.not_mem_nil, or_false] at hx
              rcases hx with rfl | rfl | rfl | rfl | rfl | rfl
              · decide
              · exact hsubd
              · decide
              · exact hpd
              · exact htd
              · exact hnd)
        simpa [string_mk_data] using h2
      unfold AzureScope.from_string
      rw [hparts]
      rfl
  | some r =>
    cases pv <;> cases rt <;> cases rn <;>
      simp only [claimValidScope, scopeSlashFree, Bool.and_eq_true, bne_iff_ne, ne_eq,
        Option.getD_none, Option.getD_some] at hv hf
    all_goals try exact absurd hv.2 Bool.false_ne_true
    case some.none.none.none =>
      have hsub : ¬sub = "" := by tauto
      have hr : ¬r = "" := by tauto
      have hsubd : '/' ∉ sub.data := noslash_of_all sub (by tauto)
      have hrd : '/' ∉ r.data := noslash_of_all r (by tauto)
      have hr2 : (r == "") = false := by simpa using hr
      have hdata :
          (AzureScope.to_string
              { subscription_id := sub, resource_group := some r, provider := none,
                resource_type := none, resource_name := none }).data
            = '/' :: slashJoin
                ["subscriptions".data, sub.data, "resourceGroups".data, r.data] := by
        simp [AzureScope.to_string, truthy, hr2, String.data_append, slashJoin,
          data_slash_subscriptions, data_slash_resourceGroups, List.append_assoc]
      have hparts :
          scopeParts
              (AzureScope.to_string
                { subscription_id := sub, resource_group := some r, provider := none,
                  resource_type := none, resource_name := none })
            = ["subscriptions", sub, "resourceGroups", r] := by
        have h2 := scopeParts_of_data _ _ hdata (by simp)
          (by intro x hx
              simp only [List.mem_cons, List.not_mem_nil, or_false] at hx
              rcases hx with rfl | rfl | rfl | rfl
              · decide
              · exact string_data_ne_nil sub hsub
              · decide
              · exact string_data_ne_nil r hr)
          (by intro x hx
              simp only [List.mem_cons, List.not_mem_nil, or_false] at hx
              rcases hx with rfl | rfl | rfl | rfl
              · decide
              · exact hsubd
              · decide
              · exact hrd)
        simpa [string_mk_data] using h2
      unfold AzureScope.from_string
      rw [hparts]
      rfl
    case some.some.some.some p t n =>
      have hsub : ¬sub = "" := by tauto
      have hr : ¬r = "" := by tauto
      have hp : ¬p = "" := by tauto
      have ht : ¬t = "" := by tauto
      have hn : ¬n = "" := by tauto
      have hsubd : '/' ∉ sub.data := noslash_of_all sub (by tauto)
      have hrd : '/' ∉ r.data := noslash_of_all r (by tauto)
      have hpd : '/' ∉ p.data := noslash_of_all p (by tauto)
      have htd : '/' ∉ t.data := noslash_of_all t (by tauto)
      have hnd : '/' ∉ n.data := noslash_of_all n (by tauto)
      have hr2 : (r == "") = false := by simpa using hr
      have hp2 : (p == "") = false := by simpa using hp
      have ht2 : (t == "") = false := by simpa using ht
      have hn2 : (n == "") = false := by simpa using hn
      have hdata :
          (AzureScope.to_string
              { subscription_id := sub, resource_group := some r, provider := some p,
                resource_type := some t, resource_name := some n }).data
            = '/' :: slashJoin
                ["subscriptions".data, sub.data, "resourceGroups".data, r.data,
                  "providers".data, p.data, t.data, n.data] := by
        simp [AzureScope.to_string, truthy, hr2, hp2, ht2, hn2, String.data_append, slashJoin,
          data_slash_subscriptions, data_slash_resourceGroups, data_slash_providers,
          data_slash, List.append_assoc]
      have hparts :
          scopeParts
              (AzureScope.to_string
                { subscription_id := sub, resource_group := some r, provider := some p,
                  resource_type := some t, resource_name := some n })
            = ["subscriptions", sub, "resourceGroups", r, "providers", p, t, n] := by
        have h2 := scopeParts_of_data _ _ hdata (by simp)
          (by intro x hx
              simp only [List.mem_cons, List.not_mem_nil, or_false] at hx
              rcases hx with rfl | rfl | rfl | rfl | rfl | rfl | rfl | rfl
              · decide
              · exact string_data_ne_nil sub hsub
              · decide
              · exact string_data_ne_nil r hr
              · decide
              · exact string_data_ne_nil p hp
              · exact string_data_ne_nil t ht
              · exact string_data_ne_nil n hn)
          (by intro x hx
              simp only [List.mem_cons, List.not_mem_nil, or_false] at hx
              rcases hx with rfl | rfl | rfl | rfl | rfl | rfl | rfl | rfl
              · decide
              · exact hsubd
              · decide
              · exact hrd
              · decide
              · exact hpd
              · exact htd
              · exact hnd)
        simpa [string_mk_data] using h2
      unfold AzureScope.from_string
      rw [hparts]
      rfl

/-- C2 witness for the amended round-trip theorem at a concrete full
resource scope. -/
theorem azureScope_roundtrip_witness :
    AzureScope.from_string
        (AzureScope.to_string
          { subscription_id := "S1", resource_group := some "rg1",
            provider := some "Microsoft.Compute", resource_type := some "virtualMachines",
            resource_name := some "vm01" }) =
      { subscription_id := "S1", resource_group := some "rg1",
        provider := some "Microsoft.Compute", resource_type := some "virtualMachines",
        resource_name := some "vm01" } :=
  azureScope_roundtrip _ (by decide) (by decide)

/-- C2 counterexample: a scope value that satisfies the validity condition
stated by the claim (all-or-none resource triple, nonempty set fields) on
which the round trip fails, because the subscription_id contains a path
separator and a second subscriptions token. -/
theorem azureScope_roundtrip_cex :
    claimValidScope { subscription_id := "a/subscriptions/b" } = true ∧
    AzureScope.from_string
        (AzureScope.to_string { subscription_id := "a/subscriptions/b" }) ≠
      { subscription_id := "a/subscriptions/b" } := by
  constructor
  · decide
  · decide

/-- Invariant of the from_string scanning loop: when no token lowers to
the keyword "subscriptions", the subscription_id accumulator is never
written. -/
theorem scanScope_subscription_unchanged (fuel : Nat) (parts : List String)
    (st : AzureScope) (h : ∀ p ∈ parts, pyLower p ≠ "subscriptions") :
    (scanScope fuel parts st).subscription_id = st.subscription_id := by
  induction fuel generalizing parts st with
  | zero => cases parts <;> simp [scanScope]
  | succ fuel ih =>
    cases parts with
    | nil => simp [scanScope]
    | cons p rest =>
      have hp : ¬(pyLower p = "subscriptions") := h p (by simp)
      simp only [scanScope]
      rw [if_neg hp]
      by_cases hrg : pyLower p = "resourcegroups"
      · rw [if_pos hrg]
        cases rest with
        | nil => exact ih [] st (by simp)
        | cons v rest2 =>
          exact ih rest2 { st with resource_group := some v }
            fun q hq => h q (List.mem_cons_of_mem p (List.mem_cons_of_mem v hq))
      · rw [if_neg hrg]
        by_cases hprov : pyLower p = "providers"
        · rw [if_pos hprov]
          cases rest with
          | nil => exact ih [] st (by simp)
          | cons v rest1 =>
            cases rest1 with
            | nil =>
              exact ih [v] st fun q hq => h q (List.mem_cons_of_mem p hq)
            | cons t rest2 =>
              cases rest2 with
              | nil =>
                exact ih [v, t] st fun q hq => h q (List.mem_cons_of_mem p hq)
              | cons n rest3 =>
                change (scanScope fuel rest3 { st with provider := some v, resource_type := some t, resource_name := some n }).subscription_id = st.subscription_id
                exact ih rest3 { st with provider := some v, resource_type := some t, resource_name := some n }
                  fun q hq => h q (List.mem_cons_of_mem p (List.mem_cons_of_mem v
                    (List.mem_cons_of_mem t (List.mem_cons_of_mem n hq))))
        · rw [if_neg hprov]
          exact ih rest st fun q hq => h q (List.mem_cons_of_mem p hq)

/-- C3 (amended): from_string never raises; for every input path whose
tokens contain no subscriptions segment, it returns a scope value whose
subscription_id is the empty string, rather than failing with an
InvalidScopeError (no such error type exists in the code). -/
theorem from_string_no_subscriptions (scope : String)
    (h : ∀ p ∈ scopeParts scope, pyLower p ≠ "subscriptions") :
    (AzureScope.from_string scope).subscription_id = "" := by
  unfold AzureScope.from_string
  exact scanScope_subscription_unchanged _ _ _ h

/-- C3 witness: a concrete path with no subscriptions segment parses to a
scope with empty subscription_id. -/
theorem from_string_no_subscriptions_witness :
    (AzureScope.from_string "/foo/bar").subscription_id = "" :=
  from_string_no_subscriptions "/foo/bar" (by decide)

/-- C3 counterexample: a path with no subscriptions segment is parsed to a
scope value; from_string is total and does not raise, contradicting the
claim that parsing fails with InvalidScopeError in exactly this case. -/
theorem from_string_total_cex :
    AzureScope.from_string "/foo/bar" = { subscription_id := "" } := by decide

/-! Error taxonomy (azure_pim/exceptions.py). APIError carries the HTTP
status code; RateLimitError is its 429 subclass and is kept as a separate
constructor; osError models a propagating builtin OSError, which is not a
PIMError subclass in the source. -/

inductive PIMError where
  | authentication (msg : String)
  | mfaRequired (msg : String)
  | roleNotFound (msg : String)
  | activation (msg : String)
  | rateLimit (msg : String) (statusCode : Nat)
  | apiError (msg : String) (statusCode : Nat)
  | osError (msg : String)
deriving DecidableEq, Repr

/-! Role resolution (operations/pim.py with clients/arm.py and
clients/graph.py). The backend role store at the queried scope is modeled as
a list of role records; the server-side $filter of find_role_by_name is an
exact match on the display name, and the by-id endpoints are an exact lookup
answering 404 when the id is absent, which _request turns into
RoleNotFoundError. -/

/-- An Azure RBAC role definition record: full resource id, GUID path
segment (the "name" the roleDefinitions/{id} endpoint is keyed by), and the
display name stored in properties.roleName. -/
structure AzureRoleRec where
  id : String
  name : String
  roleName : String
deriving DecidableEq, Repr

/-- ARMClient.find_role_by_name: GET roleDefinitions with
$filter=roleName eq q; the code returns roles[0] when the filtered list is
nonempty and None otherwise. -/
def armFindRoleByName (store : List AzureRoleRec) (role_name : String) :
    Option AzureRoleRec :=
  (store.filter fun r => r.roleName == role_name).head?

/-- Backend lookup behind ARMClient.get_role_definition: the record whose
GUID segment equals the requested id, if any. -/
def armRoleById (store : List AzureRoleRec) (role_id : String) : Option AzureRoleRec :=
  store.find? fun r => r.name == role_id

/-- ARMClient.get_role_definition against a healthy backend: 200 with the
record when the id exists, 404 (hence RoleNotFoundError from _request)
otherwise. -/
def armGetRoleDefinition (store : List AzureRoleRec) (role_id : String) :
    Except PIMError AzureRoleRec :=
  match armRoleById store role_id with
  | some r => Except.ok r
  | none =>
    Except.error (PIMError.roleNotFound ("Resource not found: roleDefinitions/" ++ role_id))

/-- PIMOperations.get_azure_role: try the display-name lookup first; only
when it returns None, try the input as a role definition id, catching only
RoleNotFoundError; when both fail, raise RoleNotFoundError with the
"Role not found" message. Any other error of the id lookup propagates. -/
def getAzureRole (store : List AzureRoleRec) (role_name_or_id : String) :
    Except PIMError AzureRoleRec :=
  match armFindRoleByName store role_name_or_id with
  | some r => Except.ok r
  | none =>
    match armGetRoleDefinition store role_name_or_id with
    | Except.ok r => Except.ok r
    | Except.error (PIMError.roleNotFound _) =>
      Except.error (PIMError.roleNotFound ("Role not found: " ++ role_name_or_id))
    | Except.error e => Except.error e

/-- An Entra directory role definition record: id, display name, and
optional template id. -/
structure EntraRoleRec where
  id : String
  displayName : String
  templateId : Option String := none
deriving DecidableEq, Repr

/-- GraphClient.find_role_by_name: GET roleDefinitions with
$filter=displayName eq q, returning the first match if any. -/
def graphFindRoleByName (store : List EntraRoleRec) (display_name : String) :
    Option EntraRoleRec :=
  (store.filter fun r => r.displayName == display_name).head?

/-- Backend lookup behind GraphClient.get_role_definition: the
roleDefinitions/{id} endpoint accepts a role definition id or a template
id. -/
def graphRoleById (store : List EntraRoleRec) (role_id : String) : Option EntraRoleRec :=
  store.find? fun r => r.id == role_id || r.templateId == some role_id

/-- GraphClient.get_role_definition against a healthy backend: 200 with the
record, or 404 turned into RoleNotFoundError by _request. -/
def graphGetRoleDefinition (store : List EntraRoleRec) (role_id : String) :
    Except PIMError EntraRoleRec :=
  match graphRoleById store role_id with
  | some r => Except.ok r
  | none =>
    Except.error (PIMError.roleNotFound ("Resource not found: roleDefinitions/" ++ role_id))

/-- PIMOperations.get_entra_role: same two-step resolution as
get_azure_role, against the directory authority. -/
def getEntraRole (store : List EntraRoleRec) (role_name_or_id : String) :
    Except PIMError EntraRoleRec :=
  match graphFindRoleByName store role_name_or_id with
  | some r => Except.ok r
  | none =>
    match graphGetRoleDefinition store role_name_or_id with
    | Except.ok r => Except.ok r
    | Except.error (PIMError.roleNotFound _) =>
      Except.error (PIMError.roleNotFound ("Role not found: " ++ role_name_or_id))
    | Except.error e => Except.error e

theorem armFindRoleByName_roleName (store : List AzureRoleRec) (q : String)
    (r : AzureRoleRec) (h : armFindRoleByName store q = some r) : r.roleName = q := by
  unfold armFindRoleByName at h
  have hm := List.mem_of_mem_head? (l := store.filter fun x => x.roleName == q) (by rw [h] ; rfl)
  simpa using (List.mem_filter.mp hm).2

theorem armFindRoleByName_of_mem (store : List AzureRoleRec) (q : String)
    (r : AzureRoleRec) (hr : r ∈ store) (hname : r.roleName = q) :
    ∃ rr, armFindRoleByName store q = some rr := by
  unfold armFindRoleByName
  cases hh : (store.filter fun x => x.roleName == q).head? with
  | some rr => exact ⟨rr, rfl⟩
  | none =>
    rw [List.head?_eq_none_iff] at hh
    have : r ∈ store.filter fun x => x.roleName == q :=
      List.mem_filter.mpr ⟨hr, by simp [hname]⟩
    rw [hh] at this
    cases this

theorem graphFindRoleByName_displayName (store : List EntraRoleRec) (q : String)
    (r : EntraRoleRec) (h : graphFindRoleByName store q = some r) : r.displayName = q := by
  unfold graphFindRoleByName at h
  have hm := List.mem_of_mem_head? (l := store.filter fun x => x.displayName == q) (by rw [h] ; rfl)
  simpa using (List.mem_filter.mp hm).2

theorem graphFindRoleByName_of_mem (store : List EntraRoleRec) (q : String)
    (r : EntraRoleRec) (hr : r ∈ store) (hname : r.displayName = q) :
    ∃ rr, graphFindRoleByName store q = some rr := by
  unfold graphFindRoleByName
  cases hh : (store.filter fun x => x.displayName == q).head? with
  | some rr => exact ⟨rr, rfl⟩
  | none =>
    rw [List.head?_eq_none_iff] at hh
    have : r ∈ store.filter fun x => x.displayName == q :=
      List.mem_filter.mpr ⟨hr, by simp [hname]⟩
    rw [hh] at this
    cases this

/-- C1: resolution order of get_azure_role and get_entra_role. For each
authority: a display-name match is returned as such; the opaque-id lookup
is consulted only when the name lookup found nothing; when both fail the
result is RoleNotFoundError; and whenever some role carries the queried
display name - in particular when that name is also a literal substring of
another role's opaque id - resolution returns a role with that display
name, never the id match. -/
theorem role_resolution_name_first (astore : List AzureRoleRec)
    (estore : List EntraRoleRec) (q : String) :
    ((∀ r, armFindRoleByName astore q = some r → getAzureRole astore q = Except.ok r) ∧
     (armFindRoleByName astore q = none → ∀ r, armRoleById astore q = some r →
        getAzureRole astore q = Except.ok r) ∧
     (armFindRoleByName astore q = none → armRoleById astore q = none →
        getAzureRole astore q =
          Except.error (PIMError.roleNotFound ("Role not found: " ++ q))) ∧
     (∀ r rOther pre post, r ∈ astore → r.roleName = q → rOther ∈ astore →
        rOther.name = pre ++ q ++ post →
        ∃ rr, getAzureRole astore q = Except.ok rr ∧ rr.roleName = q)) ∧
    ((∀ r, graphFindRoleByName estore q = some r → getEntraRole estore q = Except.ok r) ∧
     (graphFindRoleByName estore q = none → ∀ r, graphRoleById estore q = some r →
        getEntraRole estore q = Except.ok r) ∧
     (graphFindRoleByName estore q = none → graphRoleById estore q = none →
        getEntraRole estore q =
          Except.error (PIMError.roleNotFound ("Role not found: " ++ q))) ∧
     (∀ r rOther pre post, r ∈ estore → r.displayName = q → rOther ∈ estore →
        rOther.id = pre ++ q ++ post →
        ∃ rr, getEntraRole estore q = Except.ok rr ∧ rr.displayName = q)) := by
  constructor
  · refine ⟨?_, ?_, ?_, ?_⟩
    · intro r h
      simp [getAzureRole, h]
    · intro hn r h
      simp [getAzureRole, hn, armGetRoleDefinition, h]
    · intro hn h
      simp [getAzureRole, hn, armGetRoleDefinition, h]
    · intro r rOther pre post hr hname hrOther hid
      obtain ⟨rr, hrr⟩ := armFindRoleByName_of_mem astore q r hr hname
      exact ⟨rr, by simp [getAzureRole, hrr], armFindRoleByName_roleName astore q rr hrr⟩
  · refine ⟨?_, ?_, ?_, ?_⟩
    · intro r h
      simp [getEntraRole, h]
    · intro hn r h
      simp [getEntraRole, hn, graphGetRoleDefinition, h]
    · intro hn h
      simp [getEntraRole, hn, graphGetRoleDefinition, h]
    · intro r rOther pre post hr hname hrOther hid
      obtain ⟨rr, hrr⟩ := graphFindRoleByName_of_mem estore q r hr hname
      exact ⟨rr, by simp [getEntraRole, hrr], graphFindRoleByName_displayName estore q rr hrr⟩

/-- C1 witness: concrete stores in which the queried name "Contributor" is
also a literal substring of another role's opaque id; resolution returns
the name match on both authorities, and an unknown input resolves to
RoleNotFoundError. -/
theorem role_resolution_name_first_witness :
    getAzureRole
        [{ id := "/subs/S1/roleDefinitions/ons", name := "Contributor-like-id", roleName := "Owner" },
         { id := "/subs/S1/roleDefinitions/b24", name := "b24", roleName := "Contributor" }]
        "Contributor" =
      Except.ok { id := "/subs/S1/roleDefinitions/b24", name := "b24", roleName := "Contributor" } ∧
    getEntraRole
        [{ id := "xContributorx", displayName := "Global Administrator", templateId := none },
         { id := "e-2", displayName := "Contributor", templateId := some "t-2" }]
        "Contributor" =
      Except.ok { id := "e-2", displayName := "Contributor", templateId := some "t-2" } ∧
    getAzureRole
        [{ id := "/subs/S1/roleDefinitions/b24", name := "b24", roleName := "Contributor" }]
        "missing" =
      Except.error (PIMError.roleNotFound "Role not found: missing") := by
  refine ⟨?_, ?_, ?_⟩
  · exact (role_resolution_name_first _ [] "Contributor").1.1 _ (by decide)
  · exact (role_resolution_name_first [] _ "Contributor").2.1 _ (by decide)
  · exact (role_resolution_name_first _ [] "missing").1.2.2.1 (by decide) (by decide)

/-! Schedule payloads (models/common.py ExpirationPattern;
clients/arm.py create_eligible_assignment and activate_role). Dicts built
by the Python code are embedded as structures whose Option fields record
key presence. -/

/-- ExpirationPattern (models/common.py): a plain pydantic model with a type
string, an optional duration and an optional endDateTime, and no validator
relating them. -/
structure ExpirationPattern where
  type : String := "noExpiration"
  duration : Option String := none
  end_datetime : Option String := none
deriving DecidableEq, Repr

/-- Constructing an ExpirationPattern from well-typed fields: pydantic
validation would only reject ill-typed input, so construction always
succeeds, whatever the combination of type, duration and end_datetime. -/
def mkExpirationPattern (type : String) (duration : Option String)
    (end_datetime : Option String) : Except String ExpirationPattern :=
  Except.ok { type := type, duration := duration, end_datetime := end_datetime }

/-- The expiration object of a scheduleInfo dict. -/
structure ExpirationJson where
  type : String
  duration : Option String := none
  endDateTime : Option String := none
deriving DecidableEq, Repr

/-- The scheduleInfo dict of an ARM schedule request body. -/
structure ScheduleInfoJson where
  startDateTime : Option String := none
  expiration : ExpirationJson
deriving DecidableEq, Repr

/-- The ticketInfo dict of an ARM schedule request body. -/
structure TicketInfoJson where
  ticketNumber : Option String := none
  ticketSystem : Option String := none
deriving DecidableEq, Repr

/-- The properties dict of an ARM schedule request body. -/
structure ArmRequestProperties where
  requestType : String
  principalId : Option String := none
  roleDefinitionId : String
  justification : Option String := none
  scheduleInfo : Option ScheduleInfoJson := none
  ticketInfo : Option TicketInfoJson := none
deriving DecidableEq, Repr

/-- One HTTP submission performed through ARMClient._request: the method,
the endpoint path, and the JSON body, which is the single-key dict
properties. -/
structure SubmittedRequest where
  method : String
  url : String
  properties : ArmRequestProperties
deriving DecidableEq, Repr

/-- ARMClient.create_eligible_assignment: build scheduleInfo from the
expiration arguments, adding the startDateTime, duration and endDateTime
keys only when the corresponding argument is truthy, then PUT the
AdminAssign body to the roleEligibilityScheduleRequests collection keyed by
the caller-supplied request id. No validation relates expiration_type to
the presence of a duration or an end date, and nothing is rejected before
submission. -/
def createEligibleAssignment (scope principal_id role_definition_id request_id : String)
    (justification : String) (start_datetime : Option String) (expiration_type : String)
    (expiration_duration : Option String) (expiration_datetime : Option String) :
    SubmittedRequest :=
  { method := "PUT"
    url := "/" ++ scope ++ "/providers/Microsoft.Authorization/roleEligibilityScheduleRequests/"
      ++ request_id
    properties :=
      { requestType := "AdminAssign"
        principalId := some principal_id
        roleDefinitionId := role_definition_id
        justification := some justification
        scheduleInfo := some
          { startDateTime := if truthy start_datetime then start_datetime else none
            expiration :=
              { type := expiration_type
                duration := if truthy expiration_duration then expiration_duration else none
                endDateTime := if truthy expiration_datetime then expiration_datetime else none } } } }

/-- C4 counterexample: an ExpirationPattern with type afterDuration and no
duration is constructed successfully, and create_eligible_assignment
submits (method PUT, no rejection) a schedule whose kind is AfterDuration
while the expiration object carries no duration key; symmetrically an
AfterDateTime schedule with no end time is also submitted. This
contradicts the claimed fail-at-construction-or-submission behavior. -/
theorem expiration_invariant_cex :
    mkExpirationPattern "afterDuration" none none =
      Except.ok { type := "afterDuration", duration := none, end_datetime := none } ∧
    (createEligibleAssignment "subscriptions/S1" "u1" "rd1" "req1" "" none
        "AfterDuration" none none).method = "PUT" ∧
    (createEligibleAssignment "subscriptions/S1" "u1" "rd1" "req1" "" none
        "AfterDuration" none none).properties.scheduleInfo =
      some { startDateTime := none,
             expiration := { type := "AfterDuration", duration := none, endDateTime := none } } ∧
    (createEligibleAssignment "subscriptions/S1" "u1" "rd1" "req1" "" none
        "AfterDateTime" none none).properties.scheduleInfo =
      some { startDateTime := none,
             expiration := { type := "AfterDateTime", duration := none, endDateTime := none } } := by
  refine ⟨rfl, rfl, rfl, rfl⟩

/-- C4 (amended): no schedule validation exists. Construction of an
ExpirationPattern always succeeds whatever the field combination, and
create_eligible_assignment always submits: the duration key of the built
expiration is present iff the duration argument is truthy, and the
endDateTime key iff the end-date argument is truthy, both independent of
the expiration type. -/
theorem expiration_no_validation :
    (∀ ty d e, mkExpirationPattern ty d e =
      Except.ok { type := ty, duration := d, end_datetime := e }) ∧
    (∀ scope pid rid req j sd ty d e,
      (createEligibleAssignment scope pid rid req j sd ty d e).method = "PUT" ∧
      (createEligibleAssignment scope pid rid req j sd ty d e).properties.requestType
          = "AdminAssign" ∧
      (createEligibleAssignment scope pid rid req j sd ty d e).properties.scheduleInfo =
        some { startDateTime := if truthy sd then sd else none
               expiration := { type := ty
                               duration := if truthy d then d else none
                               endDateTime := if truthy e then e else none } }) := by
  exact ⟨fun ty d e => rfl, fun scope pid rid req j sd ty d e => ⟨rfl, rfl, rfl⟩⟩

/-- ARMClient.activate_role: build the SelfActivate properties with an
AfterDuration expiration carrying the requested duration, attach ticketInfo
only when a ticket argument is truthy, and PUT the body to the
roleAssignmentScheduleRequests collection keyed by the caller-supplied
request id. -/
def armActivateRole (scope role_definition_id request_id justification duration : String)
    (ticket_number ticket_system : Option String) : SubmittedRequest :=
  { method := "PUT"
    url := "/" ++ scope ++ "/providers/Microsoft.Authorization/roleAssignmentScheduleRequests/"
      ++ request_id
    properties :=
      { requestType := "SelfActivate"
        principalId := none
        roleDefinitionId := role_definition_id
        justification := some justification
        scheduleInfo := some
          { startDateTime := none
            expiration := { type := "AfterDuration", duration := some duration,
                            endDateTime := none } }
        ticketInfo :=
          if truthy ticket_number || truthy ticket_system then
            some { ticketNumber := if truthy ticket_number then ticket_number else none
                   ticketSystem := if truthy ticket_system then ticket_system else none }
          else none } }

/-- PIMOperations.activate_azure_role: resolve the role (propagating a
resolution failure), generate a request id (uuid4 in the source, modeled as
the request_id argument since its value is an oracle), and submit through
ARMClient.activate_role with the resolved role's full definition id. -/
def activateAzureRole (store : List AzureRoleRec)
    (scope role_name_or_id justification duration request_id : String)
    (ticket_number ticket_system : Option String) : Except PIMError SubmittedRequest :=
  match getAzureRole store role_name_or_id with
  | Except.error e => Except.error e
  | Except.ok role =>
    Except.ok (armActivateRole scope role.id request_id justification duration
      ticket_number ticket_system)

/-- C5: whenever role resolution succeeds, activate_azure_role submits
exactly one PUT whose URL is the roleAssignmentScheduleRequests path of the
scope suffixed with the freshly generated request id, whose requestType is
SelfActivate, and whose scheduleInfo.expiration is the AfterDuration object
carrying precisely the requested duration. -/
theorem activate_request_shape (store : List AzureRoleRec)
    (scope q j dur rid : String) (tn ts : Option String) (r : AzureRoleRec)
    (h : getAzureRole store q = Except.ok r) :
    ∃ req, activateAzureRole store scope q j dur rid tn ts = Except.ok req ∧
      req.method = "PUT" ∧
      req.url = "/" ++ scope ++ "/providers/Microsoft.Authorization/roleAssignmentScheduleRequests/"
        ++ rid ∧
      req.properties.requestType = "SelfActivate" ∧
      req.properties.roleDefinitionId = r.id ∧
      req.properties.scheduleInfo =
        some { startDateTime := none
               expiration := { type := "AfterDuration", duration := some dur,
                               endDateTime := none } } := by
  refine ⟨armActivateRole scope r.id rid j dur tn ts, ?_, rfl, rfl, rfl, rfl, rfl⟩
  simp [activateAzureRole, h]

/-- C5 witness: the scenario-A call with duration PT1H against a one-role
store, using a concrete generated request id. -/
theorem activate_request_shape_witness :
    ∃ req,
      activateAzureRole
          [{ id := "/subscriptions/S1/roleDefinitions/b24", name := "b24",
             roleName := "Contributor" }]
          "subscriptions/S1" "Contributor" "ops" "PT1H" "11111111-2222-3333-4444-555555555555"
          none none = Except.ok req ∧
      req.method = "PUT" ∧
      req.url = "/subscriptions/S1/providers/Microsoft.Authorization/roleAssignmentScheduleRequests/11111111-2222-3333-4444-555555555555" ∧
      req.properties.requestType = "SelfActivate" ∧
      req.properties.roleDefinitionId = "/subscriptions/S1/roleDefinitions/b24" ∧
      req.properties.scheduleInfo =
        some { startDateTime := none
               expiration := { type := "AfterDuration", duration := some "PT1H",
                               endDateTime := none } } :=
  activate_request_shape _ "subscriptions/S1" "Contributor" "ops" "PT1H"
    "11111111-2222-3333-4444-555555555555" none none
    { id := "/subscriptions/S1/roleDefinitions/b24", name := "b24", roleName := "Contributor" }
    (by rfl)

/-! Provider auto-selection (auth.py PIMAuth._auto_select_provider). -/

/-- The environment and configuration state the selection reads: the
IDENTITY_ENDPOINT and MSI_ENDPOINT environment variables (none when unset;
os.environ.get truthiness makes the empty string count as absent), the
configured client secret, and whether the az account show probe succeeds
(the host CLI is present and authenticated). -/
structure AuthEnv where
  identity_endpoint : Option String := none
  msi_endpoint : Option String := none
  client_secret : Option String := none
  az_cli_ok : Bool := false
deriving DecidableEq, Repr

/-- The provider chosen by _auto_select_provider. The source returns an
MSALTokenProvider in both the client-secret and the fallback case; the two
are distinguished here because with a secret configured the provider runs
the confidential client-credentials flow and without one the interactive
browser flow. -/
inductive SelectedProvider where
  | managedIdentity
  | clientCredentials
  | azureCli
  | interactive
deriving DecidableEq, Repr

/-- PIMAuth._auto_select_provider: managed-identity environment markers
first, then a configured client secret, then a reachable authenticated az
CLI, then interactive. -/
def autoSelectProvider (env : AuthEnv) : SelectedProvider :=
  if truthy env.identity_endpoint || truthy env.msi_endpoint then
    SelectedProvider.managedIdentity
  else if truthy env.client_secret then
    SelectedProvider.clientCredentials
  else if env.az_cli_ok then
    SelectedProvider.azureCli
  else
    SelectedProvider.interactive

/-- C6: provider auto-selection is a deterministic function of the
environment state with the claimed precedence; in particular, managed
identity wins whenever one of its environment markers is truthy, whatever
the other credentials. -/
theorem provider_precedence (env : AuthEnv) :
    ((truthy env.identity_endpoint || truthy env.msi_endpoint) = true →
      autoSelectProvider env = SelectedProvider.managedIdentity) ∧
    ((truthy env.identity_endpoint || truthy env.msi_endpoint) = false →
      truthy env.client_secret = true →
      autoSelectProvider env = SelectedProvider.clientCredentials) ∧
    ((truthy env.identity_endpoint || truthy env.msi_endpoint) = false →
      truthy env.client_secret = false → env.az_cli_ok = true →
      autoSelectProvider env = SelectedProvider.azureCli) ∧
    ((truthy env.identity_endpoint || truthy env.msi_endpoint) = false →
      truthy env.client_secret = false → env.az_cli_ok = false →
      autoSelectProvider env = SelectedProvider.interactive) := by
  exact ⟨fun h1 => by simp [autoSelectProvider, h1],
    fun h1 h2 => by simp [autoSelectProvider, h1, h2],
    fun h1 h2 h3 => by simp [autoSelectProvider, h1, h2, h3],
    fun h1 h2 h3 => by simp [autoSelectProvider, h1, h2, h3]⟩

/-- C6 witness: each precedence level at a concrete environment; the first
conjunct has a client secret configured and an authenticated CLI, yet the
managed-identity markers win. -/
theorem provider_precedence_witness :
    autoSelectProvider
        { identity_endpoint := some "http://localhost/msi", msi_endpoint := none,
          client_secret := some "s3cret", az_cli_ok := true } =
      SelectedProvider.managedIdentity ∧
    autoSelectProvider
        { identity_endpoint := none, msi_endpoint := none,
          client_secret := some "s3cret", az_cli_ok := true } =
      SelectedProvider.clientCredentials ∧
    autoSelectProvider
        { identity_endpoint := none, msi_endpoint := none, client_secret := none,
          az_cli_ok := true } =
      SelectedProvider.azureCli ∧
    autoSelectProvider
        { identity_endpoint := none, msi_endpoint := none, client_secret := none,
          az_cli_ok := false } =
      SelectedProvider.interactive := by
  refine ⟨(provider_precedence _).1 (by decide),
    (provider_precedence _).2.1 (by decide) (by decide),
    (provider_precedence _).2.2.1 (by decide) (by decide) (by decide),
    (provider_precedence _).2.2.2 (by decide) (by decide) (by decide)⟩

/-! Token acquisition through the CLI provider (auth.py
AzureCliTokenProvider.get_token and PIMAuth.get_arm_token). -/

/-- Token-layer state: tokens embeds the PIMAuth._tokens dict mapping an
audience to a (token, expiry) pair, which the source initializes in
PIMAuth.__init__ and then never reads or writes anywhere; acquisitions
counts az CLI invocations, that is network acquisitions. -/
structure CliAuthState where
  tokens : List (String × String × Nat) := []
  acquisitions : Nat := 0
deriving DecidableEq, Repr

/-- AzureCliTokenProvider.get_token: every call runs az account
get-access-token (one acquisition); the Nat-indexed oracle gives the
stripped stdout of the n-th invocation; an empty output raises
AuthenticationError. No cache is consulted before the call and none is
updated after it. -/
def azureCliGetToken (cliOutput : Nat → String) (st : CliAuthState) :
    Except PIMError String × CliAuthState :=
  let out := cliOutput st.acquisitions
  let st2 := { st with acquisitions := st.acquisitions + 1 }
  if out = "" then
    (Except.error (PIMError.authentication "Azure CLI returned empty token"), st2)
  else
    (Except.ok out, st2)

/-- PIMAuth.get_arm_token with the CLI provider selected: it delegates
directly to the provider on every call; the _tokens dict is never
consulted. -/
def getArmTokenCli (cliOutput : Nat → String) (st : CliAuthState) :
    Except PIMError String × CliAuthState :=
  azureCliGetToken cliOutput st

/-- C7 evaluation: two consecutive get_arm_token calls through the CLI
provider, starting from a fresh PIMAuth, both succeed yet perform two
network acquisitions, not one, and the per-audience token dict stays empty
throughout - the code has no cache between the calls, contradicting the
claimed single acquisition within the validity window. -/
theorem token_cache_unused :
    (getArmTokenCli (fun _ => "tok")
        { tokens := [], acquisitions := 0 }).1 = Except.ok "tok" ∧
    (getArmTokenCli (fun _ => "tok")
        ((getArmTokenCli (fun _ => "tok")
          { tokens := [], acquisitions := 0 }).2)).1 = Except.ok "tok" ∧
    ((getArmTokenCli (fun _ => "tok")
        ((getArmTokenCli (fun _ => "tok")
          { tokens := [], acquisitions := 0 }).2)).2).acquisitions = 2 ∧
    ¬((getArmTokenCli (fun _ => "tok")
        ((getArmTokenCli (fun _ => "tok")
          { tokens := [], acquisitions := 0 }).2)).2).acquisitions = 1 ∧
    ((getArmTokenCli (fun _ => "tok")
        ((getArmTokenCli (fun _ => "tok")
          { tokens := [], acquisitions := 0 }).2)).2).tokens = [] := by
  refine ⟨rfl, rfl, rfl, by decide, rfl⟩

/-! HTTP dispatch (clients/arm.py ARMClient._request and clients/graph.py
GraphClient._request). A response is embedded by its status code, the
Retry-After header, whether the body is nonempty, the error.message field
of the decoded body when one exists, and the raw text. -/

/-- One backend HTTP response as observed by _request. -/
structure HttpResponse where
  statusCode : Nat
  retryAfter : Option String := none
  hasContent : Bool := true
  errorMessage : Option String := none
  text : String := ""
deriving DecidableEq, Repr

/-- A successful _request result: the decoded JSON body, or the empty dict
returned on 204 or empty content. -/
inductive RequestResult where
  | emptyDict
  | json (resp : HttpResponse)
deriving DecidableEq, Repr

/-- The error message extracted for the generic >= 400 branch:
body.error.message when the body decodes and has one, response.text
otherwise. -/
def responseErrorMessage (resp : HttpResponse) : String :=
  match resp.hasContent, resp.errorMessage with
  | true, some m => m
  | true, none => resp.text
  | false, _ => resp.text

/-- ARMClient._request dispatch on the response: 429 raises RateLimitError
with the Retry-After header (default "60") embedded in the message and
status 429, 404 raises RoleNotFoundError naming the endpoint, any other
status >= 400 raises APIError, 204 or an empty body yields the empty dict,
and otherwise the decoded JSON is returned. -/
def armRequest (endpoint : String) (resp : HttpResponse) :
    Except PIMError RequestResult :=
  if resp.statusCode == 429 then
    Except.error (PIMError.rateLimit
      ("Rate limited. Retry after " ++ resp.retryAfter.getD "60" ++ " seconds") 429)
  else if resp.statusCode == 404 then
    Except.error (PIMError.roleNotFound ("Resource not found: " ++ endpoint))
  else if 400 ≤ resp.statusCode then
    Except.error (PIMError.apiError
      ("ARM API error: " ++ responseErrorMessage resp) resp.statusCode)
  else if resp.statusCode == 204 || !resp.hasContent then
    Except.ok RequestResult.emptyDict
  else
    Except.ok (RequestResult.json resp)

/-- GraphClient._request dispatch: identical ordering, with the Graph error
message and a plain 204 check (no empty-content check). -/
def graphRequest (endpoint : String) (resp : HttpResponse) :
    Except PIMError RequestResult :=
  if resp.statusCode == 429 then
    Except.error (PIMError.rateLimit
      ("Rate limited. Retry after " ++ resp.retryAfter.getD "60" ++ " seconds") 429)
  else if resp.statusCode == 404 then
    Except.error (PIMError.roleNotFound ("Resource not found: " ++ endpoint))
  else if 400 ≤ resp.statusCode then
    Except.error (PIMError.apiError
      ("Graph API error: " ++ responseErrorMessage resp) resp.statusCode)
  else if resp.statusCode == 204 then
    Except.ok RequestResult.emptyDict
  else
    Except.ok (RequestResult.json resp)

/-- ARMClient._request against the stream of responses the backend would
return to successive attempts: the code performs exactly one
client.request call per _request invocation, so only the first response is
consumed. -/
def armRequestOnce (endpoint : String) (transport : Nat → HttpResponse) :
    Except PIMError RequestResult :=
  armRequest endpoint (transport 0)

/-- ARMClient.get_assignment_request: a GET of the assignment schedule
request with the given id, dispatched through _request. -/
def getAssignmentRequest (scope request_id : String) (resp : HttpResponse) :
    Except PIMError RequestResult :=
  armRequest ("/" ++ scope ++ "/providers/Microsoft.Authorization/roleAssignmentScheduleRequests/"
    ++ request_id) resp

/-- C8: a 429 response makes _request raise RateLimitError and nothing
else, on both clients; the raised error carries status code 429 and the
Retry-After header value embedded in its message (the only form in which
the hint is carried); and the engine retries nothing: the outcome depends
only on the first response of the transport stream. -/
theorem rate_limit_429 (endpoint : String) (resp : HttpResponse) (h : String)
    (hs : resp.statusCode = 429) (hr : resp.retryAfter = some h) :
    armRequest endpoint resp =
      Except.error (PIMError.rateLimit
        ("Rate limited. Retry after " ++ h ++ " seconds") 429) ∧
    graphRequest endpoint resp =
      Except.error (PIMError.rateLimit
        ("Rate limited. Retry after " ++ h ++ " seconds") 429) ∧
    (∀ transport : Nat → HttpResponse, transport 0 = resp →
      armRequestOnce endpoint transport = armRequest endpoint resp) := by
  refine ⟨?_, ?_, ?_⟩
  · simp [armRequest, hs, hr]
  · simp [graphRequest, hs, hr]
  · intro transport ht
    simp [armRequestOnce, ht]

/-- C8 witness: scenario C, a 429 with Retry-After 30 on a submission
endpoint surfaces RateLimitError with the 30-second hint and no retry. -/
theorem rate_limit_429_witness :
    armRequest "/subscriptions/S1/providers/Microsoft.Authorization/roleAssignmentScheduleRequests/r1"
        { statusCode := 429, retryAfter := some "30" } =
      Except.error (PIMError.rateLimit "Rate limited. Retry after 30 seconds" 429) :=
  (rate_limit_429 _ { statusCode := 429, retryAfter := some "30" } "30" rfl rfl).1

/-- C10: every 404 response raises RoleNotFoundError on both clients,
whatever the endpoint - the error constructor does not depend on the
endpoint, so a missing role and any other missing resource are
indistinguishable by exception type; in particular polling an assignment
schedule request by an unknown request id raises RoleNotFoundError. -/
theorem notFound_is_roleNotFound (endpoint : String) (resp : HttpResponse)
    (hs : resp.statusCode = 404) :
    armRequest endpoint resp =
      Except.error (PIMError.roleNotFound ("Resource not found: " ++ endpoint)) ∧
    graphRequest endpoint resp =
      Except.error (PIMError.roleNotFound ("Resource not found: " ++ endpoint)) ∧
    (∀ scope request_id, getAssignmentRequest scope request_id resp =
      Except.error (PIMError.roleNotFound
        ("Resource not found: " ++ ("/" ++ scope
          ++ "/providers/Microsoft.Authorization/roleAssignmentScheduleRequests/"
          ++ request_id)))) := by
  refine ⟨?_, ?_, ?_⟩
  · simp [armRequest, hs]
  · simp [graphRequest, hs]
  · intro scope request_id
    simp [getAssignmentRequest, armRequest, hs]

/-- C10 witness: polling a schedule request status with an unknown request
id, a non-role lookup, surfaces RoleNotFoundError. -/
theorem notFound_is_roleNotFound_witness :
    getAssignmentRequest "subscriptions/S1" "deadbeef" { statusCode := 404 } =
      Except.error (PIMError.roleNotFound
        "Resource not found: /subscriptions/S1/providers/Microsoft.Authorization/roleAssignmentScheduleRequests/deadbeef") :=
  (notFound_is_roleNotFound "" { statusCode := 404 } rfl).2.2 "subscriptions/S1" "deadbeef"

/-! Token cache persistence (auth.py MSALTokenProvider._load_cache,
_save_cache and get_token). Filesystem effects are embedded as an outcome
record saying which steps raise OSError. -/

/-- The filesystem outcome of one _save_cache call: whether the
cache-directory mkdir, the write_text, and the chmod raise OSError. -/
structure FsOutcome where
  mkdirError : Option String := none
  writeError : Option String := none
  chmodError : Option String := none
deriving DecidableEq, Repr

/-- MSALTokenProvider._save_cache: the parent-directory mkdir runs before
the try block, so an OSError there propagates to the caller; write_text and
chmod run inside try/except OSError, so their failures are logged and
absorbed. -/
def saveCache (fs : FsOutcome) : Except String Unit :=
  match fs.mkdirError with
  | some e => Except.error e
  | none =>
    match fs.writeError with
    | some _ => Except.ok ()
    | none =>
      match fs.chmodError with
      | some _ => Except.ok ()
      | none => Except.ok ()

/-- The outcome of the MSAL library calls inside get_token: the token of a
successful acquire_token_silent when accounts exist, the access_token of
the fresh acquisition, and the error fields of a failed result. -/
structure MsalResult where
  silentToken : Option String := none
  acquiredToken : Option String := none
  errorField : String := ""
  errorDescription : String := ""
deriving DecidableEq, Repr

/-- Case-insensitive substring test used by the MFA classification. -/
def containsSub (needle hay : String) : Bool :=
  decide (needle.data <:+: hay.data)

/-- MSALTokenProvider.get_token: return a silently refreshed token at once
(without saving the cache); otherwise acquire afresh, classify a failure as
MFARequiredError when the description mentions mfa or multi and as
AuthenticationError otherwise, and on success save the cache - whose
propagating failure (the mkdir step) escapes get_token - and return the
token. -/
def msalGetToken (m : MsalResult) (fs : FsOutcome) : Except PIMError String :=
  match m.silentToken with
  | some tok => Except.ok tok
  | none =>
    match m.acquiredToken with
    | some tok =>
      match saveCache fs with
      | Except.error e => Except.error (PIMError.osError e)
      | Except.ok _ => Except.ok tok
    | none =>
      if containsSub "mfa" (pyLower m.errorDescription)
          || containsSub "multi" (pyLower m.errorDescription) then
        Except.error (PIMError.mfaRequired ("MFA required: " ++ m.errorDescription))
      else
        Except.error (PIMError.authentication
          ("Authentication failed: " ++ m.errorField ++ " - " ++ m.errorDescription))

/-- The state of the cache file at load time. -/
inductive CacheLoad where
  | missing
  | unreadable (msg : String)
  | content (blob : String)
deriving DecidableEq, Repr

/-- MSALTokenProvider._load_cache: a missing file is skipped; a file whose
read or JSON deserialization raises is logged and skipped; only readable
well-formed content populates the in-memory cache. -/
def loadCache : CacheLoad → Option String
  | CacheLoad.missing => none
  | CacheLoad.unreadable _ => none
  | CacheLoad.content blob => some blob

/-- C9 counterexample: an acquisition succeeds (a fresh token is obtained)
but persisting the cache raises an OSError at the directory-creation step,
which runs outside the try block; get_token then fails with that OSError
instead of returning the acquired token. -/
theorem cache_write_failure_cex :
    msalGetToken { acquiredToken := some "tok" } { mkdirError := some "Permission denied" } =
      Except.error (PIMError.osError "Permission denied") := rfl

/-- C9 (amended): cache persistence is best-effort only for the write_text
and chmod steps - when the cache-directory mkdir succeeds, any OS error of
those steps is absorbed and get_token still returns the acquired token -
while an OS error of the mkdir step propagates and fails the acquisition;
and corrupt or unreadable cache content at load time is treated exactly as
a missing cache file. -/
theorem cache_write_best_effort (m : MsalResult) (fs : FsOutcome) (tok : String)
    (hsilent : m.silentToken = none) (hacq : m.acquiredToken = some tok)
    (hmkdir : fs.mkdirError = none) :
    msalGetToken m fs = Except.ok tok ∧
    (∀ e, loadCache (CacheLoad.unreadable e) = loadCache CacheLoad.missing) ∧
    (∀ e, msalGetToken m { fs with mkdirError := some e } =
      Except.error (PIMError.osError e)) := by
  refine ⟨?_, fun e => rfl, fun e => ?_⟩
  · cases hw : fs.writeError <;> cases hc : fs.chmodError <;>
      simp [msalGetToken, hsilent, hacq, saveCache, hmkdir, hw, hc]
  · simp [msalGetToken, hsilent, hacq, saveCache]

/-- C9 witness: a fresh acquisition whose cache write_text raises Disk
full is still returned to the caller. -/
theorem cache_write_best_effort_witness :
    msalGetToken { silentToken := none, acquiredToken := some "tok" }
        { mkdirError := none, writeError := some "Disk full", chmodError := none } =
      Except.ok "tok" :=
  (cache_write_best_effort
    { silentToken := none, acquiredToken := some "tok" }
    { mkdirError := none, writeError := some "Disk full", chmodError := none }
    "tok" rfl rfl rfl).1

end AzurePim
